import Mathlib

/-!
Shallow embedding of the period-bucketed metrics aggregation and
commitment-scoring core of the raqa-kpis dashboard, together with proofs
of the stated properties.

Modelling conventions:
* a `Period` (a pandas `Period` at the active granularity Month/Quarter/Year)
  is an integer: periods of one granularity are totally ordered, discrete,
  and contiguous, which is all the code uses.  "For every interval" claims
  are therefore quantified over the period-labelled data directly: the
  period columns (`'Month of Submission'`, `'Completed Quarter'`, ...) are
  attached upstream by `add_period_cols` and carried here as record fields.
* a pandas `Series` indexed by periods is an association list
  `List (Period × Option ℚ)`: the list of index entries in order, `none`
  standing for the float `NaN`.  Numeric values are embedded as `ℚ`.
* an unavailable data source (the repository's "`df` is an error string"
  convention) is the `none` of an outer `Option`.
-/

namespace RaqaKpis

abbrev Period := Int

abbrev PSeries := List (Period × Option ℚ)

/-- Index of a series (`s.index`). -/
def keys (s : PSeries) : List Period :=
  s.map Prod.fst

/-- Value of a series at a period label, flattening "label absent from the
index" and "value is NaN" into `none`; this is exactly how a label behaves
in pandas arithmetic after alignment. -/
def getv (s : PSeries) (p : Period) : Option ℚ :=
  (s.lookup p).join

/-- NaN-propagating binary arithmetic on cells. -/
def omap2 (f : ℚ → ℚ → ℚ) : Option ℚ → Option ℚ → Option ℚ
  | some a, some b => some (f a b)
  | _, _ => none

/-- Union of two indexes, first index's entries first.  (pandas sorts the
union; the order of index entries is irrelevant to every value-wise
statement proved below.) -/
def unionKeys (k1 k2 : List Period) : List Period :=
  k1 ++ k2.filter (fun p => decide (p ∉ k1))

/-- Elementwise map over the cells of a series, keeping the index. -/
def seriesMap (f : Option ℚ → Option ℚ) (s : PSeries) : PSeries :=
  s.map (fun pv => (pv.1, f pv.2))

/-- `series * c` (scalar multiplication keeps the index; NaN stays NaN). -/
def seriesScale (c : ℚ) (s : PSeries) : PSeries :=
  seriesMap (Option.map (fun x => x * c)) s

/-- `c + series` (scalar broadcast keeps the index; NaN stays NaN). -/
def seriesAddConst (c : ℚ) (s : PSeries) : PSeries :=
  seriesMap (Option.map (fun x => c + x)) s

/-- `series + series`: pandas aligns on the union of the indexes; a label
missing from either operand, or carrying NaN in either, yields NaN. -/
def seriesAdd (s1 s2 : PSeries) : PSeries :=
  (unionKeys (keys s1) (keys s2)).map (fun p => (p, omap2 (· + ·) (getv s1 p) (getv s2 p)))

/-- Float division as used below.  pandas gives NaN for 0/0 and ±inf for
x/0 with x ≠ 0; in every use in this development the numerator is a count
bounded by the denominator count, so a zero denominator forces a zero
numerator and the ±inf case is unreachable.  Both are modelled by `none`. -/
def pandasDiv (a b : ℚ) : Option ℚ :=
  if b = 0 then none else some (a / b)

/-- `series / series` with pandas alignment. -/
def seriesDiv (s1 s2 : PSeries) : PSeries :=
  (unionKeys (keys s1) (keys s2)).map
    (fun p =>
      (p, match getv s1 p, getv s2 p with
          | some a, some b => pandasDiv a b
          | _, _ => none))

/-- `.replace(0, np.nan)` on the cells of a series. -/
def replaceZeroNaN (s : PSeries) : PSeries :=
  seriesMap (fun v => v.bind (fun x => if x = 0 then none else some x)) s

/-- `series * 100`. -/
def timesHundred (s : PSeries) : PSeries :=
  seriesMap (Option.map (fun x => x * 100)) s

/-- Sorted list of the distinct elements of `l`: the index produced by a
pandas `groupby` over the values of `l`. -/
def sortedDedup (l : List Period) : List Period :=
  (List.insertionSort (· ≤ ·) l).dedup

/-- Canonical period range: `pd.period_range(start=RAD_DATE, end=today)` at
the active granularity (`compute_all_periods` in utils/constants.py) —
every period from the epoch's truncation through "now"'s truncation. -/
def canonicalRange (epoch now : Period) : List Period :=
  (List.range (now + 1 - epoch).toNat).map (fun i => epoch + i)

/-- Prefix test on character lists. -/
def chPre : List Char → List Char → Bool
  | [], _ => true
  | _ :: _, [] => false
  | a :: as, b :: bs => a = b && chPre as bs

/-- Contiguous-sublist test on character lists. -/
def chSub (n : List Char) : List Char → Bool
  | [] => chPre n []
  | b :: bs => chPre n (b :: bs) || chSub n bs

/-- Whether `needle` occurs contiguously inside `hay`. -/
def strContains (hay needle : String) : Bool :=
  chSub needle.data hay.data

/-- `items_in_a_series` from utils/text_fmt.py: joins items with commas and
a final conjunction.  (On an empty list the source raises `IndexError`; the
only caller below guards against that case, and we return `""` there.) -/
def items_in_a_series (items : List String) (conjunction : String) (comma_for_clarity : Bool) : String :=
  match items with
  | [] => ""
  | [x] => x
  | [x, y] => x ++ (if comma_for_clarity then ", " else " ") ++ conjunction ++ " " ++ y
  | _ => String.intercalate ", " items.dropLast ++ ", " ++ conjunction ++ " " ++ (items.getLast?.getD "")

/-- The error message `compute_commitment` returns when some categories'
data could not be retrieved. -/
def missing_data_msg (names : List String) : String :=
  "Cannot compute commitment because " ++ items_in_a_series names "and" false
    ++ " data could not be retrieved."

/-- `COMMITMENT_WTS` from RA_QA KPIs.py: category name and weight, in the
`OrderedDict` insertion order. -/
def COMMITMENT_WTS : List (String × ℚ) :=
  [("Audits", 0.2), ("CAPAs", 0.25), ("Complaints", 0.35), ("Training", 0.2)]

/-- One iteration of the `commitment += commitments[cat] * wt` loop.  The
accumulator starts as the Python int `1` (`Sum.inl`) and becomes a Series
(`Sum.inr`) after the first iteration: `1 + series` broadcasts over the
series' index, thereafter `series + series` aligns on the index union. -/
def stepWt (commitments : List (String × Option PSeries)) (acc : Sum ℚ PSeries)
    (cw : String × ℚ) : Sum ℚ PSeries :=
  -- in the success branch every category's lookup yields an available series,
  -- so the default `[]` is never consulted
  let s := ((commitments.lookup cw.1).join).getD []
  match acc with
  | Sum.inl c => Sum.inr (seriesAddConst c (seriesScale cw.2 s))
  | Sum.inr t => Sum.inr (seriesAdd t (seriesScale cw.2 s))

/-- One iteration of the min-period scan of `compute_commitment`: keep the
latest `commitment.index[0]` and its category.  The source evaluates
`commitment.index[0]` for every non-`None` entry (either inside the
condition, or — for the first available entry — in the loop body), so an
available series with an EMPTY index raises `IndexError`; the uncaught
exception is the outer `none`, and it propagates. -/
def scanStep (st : Option (Option Period × Option String)) (c : String × Option PSeries) :
    Option (Option Period × Option String) :=
  match st with
  | none => none
  | some mpc =>
    match c.2 with
    | none => some mpc
    | some s =>
      match (keys s).head? with
      | none => none
      | some p0 =>
        match mpc.1 with
        | none => some (some p0, some c.1)
        | some mp => if mp < p0 then some (some p0, some c.1) else some mpc

/-- The part of `compute_commitment` after the min-period scan: collect the
missing categories (`sorted(...)` of the names — the four names are already
in ascending lexicographic order, so filtering in dict order is sorted) and
either fail with the message or fold the weighted sum. -/
def commitBody (commitments : List (String × Option PSeries))
    (scanres : Option Period × Option String) :
    Option (Except String (PSeries × Option Period × Option String)) :=
  let no_data_for := (commitments.filter (fun c => c.2.isNone)).map Prod.fst
  if no_data_for.isEmpty then
    match COMMITMENT_WTS.foldl (stepWt commitments) (Sum.inl 1) with
    | Sum.inr s => some (Except.ok (s, scanres.1, scanres.2))
    | Sum.inl _ => some (Except.error "")   -- unreachable: COMMITMENT_WTS is nonempty
  else
    some (Except.error (missing_data_msg no_data_for))

/-- `compute_commitment` from RA_QA KPIs.py.  Takes the audits, CAPAs, and
complaints commitment series as computed by the category pages (`none` =
that source's data could not be retrieved) and the training series, and
returns either the composite series with the latest "first index entry"
period and its category, or the error message.  The outer `none` is an
uncaught Python exception; the source has two reachable crash paths:
* `'Training': compute_training_commitment()[interval]` raises `TypeError`
  whenever the training data is unavailable — `dfs_training` is then the
  Python `None`, which the `isinstance(dfs_training, str)` guard does not
  catch, so `None` gets subscripted.  The training argument is therefore
  `Option PSeries` with `none` = "training data unavailable", and that case
  crashes while building the dict, before any other check;
* the min-period scan raises `IndexError` on any available series with an
  empty index (reachable: `compute_audit_commitment` returns an empty
  Series whenever no audit row has a nonzero planned count). -/
def compute_commitment (audits capas complaints training : Option PSeries) :
    Option (Except String (PSeries × Option Period × Option String)) :=
  match training with
  | none => none
  | some tr =>
    match ([("Audits", audits), ("CAPAs", capas), ("Complaints", complaints),
        ("Training", some tr)] : List (String × Option PSeries)).foldl scanStep
        (some (none, none)) with
    | none => none
    | some scanres =>
      commitBody
        [("Audits", audits), ("CAPAs", capas), ("Complaints", complaints), ("Training", some tr)]
        scanres

/-- The categories of `COMMITMENT_WTS` whose series is unavailable, in the
order `compute_commitment` collects them (the dictionary order, which for
these four names coincides with Python's `sorted(...)`). -/
def missingCategories (audits capas complaints training : Option PSeries) : List String :=
  (([("Audits", audits), ("CAPAs", capas), ("Complaints", complaints),
      ("Training", training)] : List (String × Option PSeries)).filter
    (fun c => c.2.isNone)).map Prod.fst

/-- One CAPA record as produced by `read_capa_data` (read_data/read_capas.py),
restricted to the fields the CAPA metrics consult.  `subPeriod` is the
`'<interval> of Submission'` period column attached by `add_period_cols` for
the active interval (`none` = the submission date is NaT).  The
`filter_by_selection` UI filter is applied upstream; the record list passed
in is the frame the metric actually aggregates. -/
structure Capa where
  status : String
  subDate : Option Int
  dueDate : Option Int
  effStatus : Option String
  age : Option ℚ
  subPeriod : Option Period
  deriving DecidableEq

/-- `df['Date of Submission'] <= df['Due Date']`: a pandas date comparison
involving NaT is `False`. -/
def dleB (a b : Option Int) : Bool :=
  match a, b with
  | some x, some y => decide (x ≤ y)
  | _, _ => false

/-- `df['Age'] <= k`: a comparison involving NaN is `False`. -/
def qleB (a : Option ℚ) (k : ℚ) : Bool :=
  match a with
  | some x => decide (x ≤ k)
  | none => false

/-- `df_capas_[df_capas_['Status'] == 'Closed']`. -/
def closedOnly (df : List Capa) : List Capa :=
  df.filter (fun c => c.status == "Closed")

/-- `df.groupby(period_col).size()`: rows with a null period label are
dropped; the resulting index is the sorted distinct labels. -/
def groupSizeBy {α : Type} (key : α → Option Period) (l : List α) : PSeries :=
  (sortedDedup (l.filterMap key)).map
    (fun p => (p, some ((l.filter (fun x => key x == some p)).length : ℚ)))

/-- `.reindex(periods, fill_value / default NaN)`: the new index is exactly
`periods`; labels absent from the old index take `fill`. -/
def reindexFill (periods : List Period) (s : PSeries) (fill : Option ℚ) : PSeries :=
  periods.map
    (fun p =>
      (p, match s.lookup p with
          | some v => v
          | none => fill))

/-- `ct_by_submission_date` from pages/CAPAs.py: number of closed CAPAs
submitted in each period of the canonical range, missing periods filled
with zero. -/
def ct_by_submission_date (periods : List Period) (dfCapas : Option (List Capa)) :
    Option PSeries :=
  match dfCapas with
  | none => none
  | some df => some (reindexFill periods (groupSizeBy (fun c => c.subPeriod) (closedOnly df)) (some 0))

/-- `compute_capa_commitment` from pages/CAPAs.py: percent of closed CAPAs
submitted on or before their due date, per submission period. -/
def compute_capa_commitment (periods : List Period) (dfCapas : Option (List Capa)) :
    Option PSeries :=
  match dfCapas with
  | none => none
  | some df =>
    match ct_by_submission_date periods (some df) with
    | none => none
    | some submitted =>
      if submitted.isEmpty then none
      else
        let dfc := closedOnly df
        let ct_on_time :=
          reindexFill periods
            (groupSizeBy (fun c => c.subPeriod) (dfc.filter (fun c => dleB c.subDate c.dueDate)))
            (some 0)
        some (timesHundred (seriesDiv ct_on_time submitted))

/-- `compute_capa_effectiveness` from pages/CAPAs.py: percent of closed
CAPAs that passed the effectiveness verification, per submission period.
(`ct_by_submission_date` always yields a series here since the frame is
available, so its result is read off directly.) -/
def compute_capa_effectiveness (periods : List Period) (dfCapas : Option (List Capa)) :
    Option PSeries :=
  match dfCapas with
  | none => none
  | some df =>
    let submitted := (ct_by_submission_date periods (some df)).getD []
    let dfc := closedOnly df
    let ct_passed :=
      reindexFill periods
        (groupSizeBy (fun c => c.subPeriod) (dfc.filter (fun c => c.effStatus == some "Pass")))
        (some 0)
    some (timesHundred (seriesDiv ct_passed submitted))

/-- `compute_submitted_timely` from pages/CAPAs.py: percent of closed CAPAs
submitted within 90 days of creation (`Age <= 90`), per submission period. -/
def compute_submitted_timely (periods : List Period) (dfCapas : Option (List Capa)) :
    Option PSeries :=
  match dfCapas with
  | none => none
  | some df =>
    let submitted := (ct_by_submission_date periods (some df)).getD []
    let dfc := closedOnly df
    let ct_timely :=
      reindexFill periods
        (groupSizeBy (fun c => c.subPeriod) (dfc.filter (fun c => qleB c.age 90)))
        (some 0)
    some (timesHundred (seriesDiv ct_timely submitted))

/-- One row of `dfs_audits[interval]` (utils/read_data.py `read_audits`,
aggregated per interval in pages/Audits.py): planned and completed audit
counts for one period and one audit type.  The `Type` column only selects
which rows are passed in (the `filter_by_type` UI filter). -/
structure AuditRow where
  period : Period
  planned : Nat
  completed : Nat
  deriving DecidableEq

/-- The cell `compute_audit_commitment` produces for one period group:
`Completed.sum / Planned.sum.replace(0, nan) * 100` over the rows of that
period. -/
def auditGroupVal (rs2 : List AuditRow) (p : Period) : Option ℚ :=
  if ((((rs2.filter (fun r => r.period == p)).map (fun r => r.planned)).sum : Nat) : ℚ) = 0 then
    none
  else
    some (((((rs2.filter (fun r => r.period == p)).map (fun r => r.completed)).sum : Nat) : ℚ)
      / ((((rs2.filter (fun r => r.period == p)).map (fun r => r.planned)).sum : Nat) : ℚ) * 100)

/-- `compute_audit_commitment` from pages/Audits.py: drop rows with zero
planned audits, group the rest by period summing `Completed` and `Planned`,
then `Completed / Planned.replace(0, nan) * 100`.  Note there is no
reindexing onto the canonical range: the index is only the periods that
survive the `Planned != 0` row filter. -/
def compute_audit_commitment (rows : Option (List AuditRow)) : Option PSeries :=
  match rows with
  | none => none
  | some rs =>
    some ((sortedDedup ((rs.filter (fun r => r.planned != 0)).map (fun r => r.period))).map
      (fun p => (p, auditGroupVal (rs.filter (fun r => r.planned != 0)) p)))

/-- One complaint record (utils/read_data.py `read_complaints`), restricted
to the fields `compute_complaint_commitment` consults: the
`'Completed <interval>'` period column and `'# Days Open'`.  The
`filter_by_device` UI filter is applied upstream. -/
structure Complaint where
  completedPeriod : Option Period
  daysOpen : Option ℚ
  deriving DecidableEq

/-- `compute_complaint_commitment` from pages/Complaints.py: percent of
complaints closed within 60 days, per closure period, zero-denominator
periods replaced by NaN. -/
def compute_complaint_commitment (periods : List Period) (df : Option (List Complaint)) :
    Option PSeries :=
  match df with
  | none => none
  | some cs =>
    let cts := reindexFill periods (groupSizeBy (fun c => c.completedPeriod) cs) (some 0)
    let le60 :=
      reindexFill periods
        (groupSizeBy (fun c => c.completedPeriod) (cs.filter (fun c => qleB c.daysOpen 60)))
        (some 0)
    some (timesHundred (seriesDiv le60 (replaceZeroNaN cts)))

/-- One row of `dfs_training[interval]` (pages/Training.py): one user's
training counts for one period; `compute_training_commitment` only consults
the period and the `'# Trainings Completed'` / `'# Trainings Completed on
Time'` columns it sums per period. -/
structure TrainRow where
  period : Period
  completed : Nat
  onTime : Nat
  deriving DecidableEq

/-- The per-interval body of `compute_training_commitment` from
pages/Training.py (the source loops this over the three intervals with
`periods = ALL_PERIODS[interval]` when no explicit bounds are given):
group by period summing the counts, compute
`onTime / completed.replace(0, nan) * 100`, then left-merge onto the
canonical periods and `.fillna(0)` — which turns BOTH absent periods and
the zero-denominator NaN into `0`.  This def is the ratio column
`'% Trainings Completed on Time'` for one period group:
`onTime.sum / completed.sum.replace(0, nan) * 100`. -/
def trainingRatioVal (rs : List TrainRow) (p : Period) : Option ℚ :=
  if ((((rs.filter (fun r => r.period == p)).map (fun r => r.completed)).sum : Nat) : ℚ) = 0 then
    none
  else
    some (((((rs.filter (fun r => r.period == p)).map (fun r => r.onTime)).sum : Nat) : ℚ)
      / ((((rs.filter (fun r => r.period == p)).map (fun r => r.completed)).sum : Nat) : ℚ) * 100)

/-- `compute_training_commitment`, continued: group by period, attach the
ratio column, left-merge onto the canonical periods and `.fillna(0)`.
The `none` input is "training data unavailable"; the resulting `none` is
NOT a returned Python `None` but an uncaught `TypeError`: the source guard
tests `isinstance(dfs_training, str)` while the module sets
`dfs_training = None` in that case, so the function subscripts `None` and
raises (its docstring's promised `None` return is unreachable). -/
def compute_training_commitment (periods : List Period) (rows : Option (List TrainRow)) :
    Option PSeries :=
  match rows with
  | none => none
  | some rs =>
    some (periods.map
      (fun p =>
        (p, some (match ((sortedDedup (rs.map (fun r => r.period))).map
                (fun q => (q, trainingRatioVal rs q))).lookup p with
              | some (some v) => v
              | some none => 0
              | none => 0))))

/-- Concrete CAPA frame exercising the commitment formula: one OPEN CAPA
submitted on time in period 0 (submission day 0 ≤ due day 5) and one
closed CAPA submitted late in period 0 (submission day 9 > due day 5). -/
def exC6df : List Capa :=
  [⟨"Open", some 0, some 5, none, none, some 0⟩,
   ⟨"Closed", some 9, some 5, none, none, some 0⟩]

/-- The boundary-period exclusion performed by `plot_bar`
(utils/plotting.py) before fitting a trendline: drop the first plotted
period when it is the minimum period of the data (`min_period_msg` given
and `start == min_period`), drop the last when it is the current period
(`max_period_msg` given and `end == max_period`). -/
def trimBoundary (filtered : List (Option ℚ)) (dropFirst dropLast : Bool) : List (Option ℚ) :=
  let y1 := if dropFirst then filtered.drop 1 else filtered
  if dropLast then y1.dropLast else y1

/-- The guard `if len(y_values) > 2:` in `plot_bar` deciding whether
`compute_trendline` is invoked: it tests the TOTAL length of the window,
NaN entries included. -/
def fitsTrendline (y_values : List (Option ℚ)) : Bool :=
  decide (2 < y_values.length)

/-- The trailing window pandas `rolling(window=w)` looks at for position
`i`: entries `i+1-w .. i`. -/
def windowAt (xs : List (Option ℚ)) (w i : Nat) : List (Option ℚ) :=
  (xs.take (i + 1)).drop (i + 1 - w)

/-- `series.rolling(window=w, min_periods=m).mean()`: at each position the
mean of the non-NaN entries of the trailing window, provided at least `m`
of them are non-NaN, else NaN.  `plot_bar` uses `w = m = 3`. -/
def rollingMean (w m : Nat) (xs : List (Option ℚ)) : List (Option ℚ) :=
  (List.range xs.length).map
    (fun i =>
      if m ≤ ((windowAt xs w i).filterMap id).length then
        some (((windowAt xs w i).filterMap id).sum / (((windowAt xs w i).filterMap id).length : ℚ))
      else none)

/-! Helper lemmas about the series model. -/

theorem lookup_map_key {β : Type} (g : Period → β) (l : List Period) (p : Period) :
    (l.map (fun q => (q, g q))).lookup p = if p ∈ l then some (g p) else none := by
  induction l with
  | nil => simp
  | cons a t ih =>
    by_cases h : p = a
    · subst h
      simp [List.lookup]
    · have hb : (p == a) = false := beq_false_of_ne h
      simp [List.lookup, hb, ih, h]

theorem keys_map_key {g : Period → Option ℚ} (l : List Period) :
    keys (l.map (fun q => (q, g q))) = l := by
  simp only [keys, List.map_map]
  exact List.map_id l

theorem getv_map_key (g : Period → Option ℚ) (l : List Period) (p : Period) :
    getv (l.map (fun q => (q, g q))) p = if p ∈ l then g p else none := by
  unfold getv
  rw [lookup_map_key]
  split <;> simp [Option.join]

theorem lookup_eq_none_of_not_mem_keys (s : PSeries) (p : Period) (h : p ∉ keys s) :
    s.lookup p = none := by
  induction s with
  | nil => rfl
  | cons a t ih =>
    have h1 : p ≠ a.1 := by
      intro he
      exact h (by simp [keys, he])
    have h2 : p ∉ keys t := by
      intro hm
      exact h (by simp [keys] at hm ⊢; exact Or.inr hm)
    have hb : (p == a.1) = false := beq_false_of_ne h1
    simpa [List.lookup, hb] using ih h2

theorem getv_eq_none_of_not_mem_keys (s : PSeries) (p : Period) (h : p ∉ keys s) :
    getv s p = none := by
  simp [getv, lookup_eq_none_of_not_mem_keys s p h, Option.join]

theorem mem_unionKeys (k1 k2 : List Period) (p : Period) :
    p ∈ unionKeys k1 k2 ↔ p ∈ k1 ∨ p ∈ k2 := by
  simp only [unionKeys, List.mem_append, List.mem_filter, decide_eq_true_iff]
  constructor
  · rintro (h | ⟨h, _⟩)
    · exact Or.inl h
    · exact Or.inr h
  · rintro (h | h)
    · exact Or.inl h
    · by_cases h1 : p ∈ k1
      · exact Or.inl h1
      · exact Or.inr ⟨h, h1⟩

theorem getv_seriesAdd (s1 s2 : PSeries) (p : Period) :
    getv (seriesAdd s1 s2) p = omap2 (· + ·) (getv s1 p) (getv s2 p) := by
  unfold seriesAdd
  rw [getv_map_key]
  split
  · rfl
  · rename_i h
    rw [mem_unionKeys] at h
    push_neg at h
    rw [getv_eq_none_of_not_mem_keys s1 p h.1, getv_eq_none_of_not_mem_keys s2 p h.2]
    rfl

theorem getv_seriesDiv (s1 s2 : PSeries) (p : Period) :
    getv (seriesDiv s1 s2) p
      = match getv s1 p, getv s2 p with
        | some a, some b => pandasDiv a b
        | _, _ => none := by
  unfold seriesDiv
  rw [getv_map_key]
  split
  · rfl
  · rename_i h
    rw [mem_unionKeys] at h
    push_neg at h
    rw [getv_eq_none_of_not_mem_keys s1 p h.1, getv_eq_none_of_not_mem_keys s2 p h.2]

theorem getv_seriesMap (f : Option ℚ → Option ℚ) (hf : f none = none) (s : PSeries)
    (p : Period) : getv (seriesMap f s) p = f (getv s p) := by
  induction s with
  | nil => simp [seriesMap, getv, Option.join, hf]
  | cons a t ih =>
    by_cases h : p = a.1
    · subst h
      simp [seriesMap, getv, List.lookup, Option.join]
    · have hb2 : (p == a.1) = false := beq_false_of_ne h
      simpa [seriesMap, getv, List.lookup, hb2] using ih

theorem keys_seriesMap (f : Option ℚ → Option ℚ) (s : PSeries) :
    keys (seriesMap f s) = keys s := by
  simp [seriesMap, keys, List.map_map]

theorem keys_reindexFill (periods : List Period) (s : PSeries) (fill : Option ℚ) :
    keys (reindexFill periods s fill) = periods := by
  simp only [reindexFill, keys, List.map_map]
  exact List.map_id periods

theorem mem_sortedDedup (l : List Period) (p : Period) :
    p ∈ sortedDedup l ↔ p ∈ l := by
  simp [sortedDedup, List.mem_dedup, (List.perm_insertionSort (· ≤ ·) l).mem_iff]

theorem getv_countSeries {α : Type} (key : α → Option Period) (l : List α)
    (periods : List Period) (p : Period) (hp : p ∈ periods) :
    getv (reindexFill periods (groupSizeBy key l) (some 0)) p
      = some ((l.filter (fun x => key x == some p)).length : ℚ) := by
  unfold reindexFill
  rw [getv_map_key _ _ _]
  rw [if_pos hp]
  unfold groupSizeBy
  rw [lookup_map_key]
  by_cases hm : p ∈ sortedDedup (l.filterMap key)
  · rw [if_pos hm]
  · rw [if_neg hm]
    have hempty : l.filter (fun x => key x == some p) = [] := by
      rw [List.filter_eq_nil_iff]
      intro x hx hkx
      apply hm
      rw [mem_sortedDedup]
      exact List.mem_filterMap.mpr ⟨x, hx, by simpa using hkx⟩
    simp [hempty]

theorem keys_seriesDiv (s1 s2 : PSeries) :
    keys (seriesDiv s1 s2) = unionKeys (keys s1) (keys s2) :=
  keys_map_key (unionKeys (keys s1) (keys s2))

theorem unionKeys_self (k : List Period) : unionKeys k k = k := by
  unfold unionKeys
  have h : k.filter (fun p => decide (p ∉ k)) = [] := by
    rw [List.filter_eq_nil_iff]
    intro a ha
    simp [ha]
  rw [h, List.append_nil]

theorem length_filter_filter_le {α : Type} (P Q : α → Bool) (l : List α) :
    ((l.filter P).filter Q).length ≤ (l.filter Q).length := by
  induction l with
  | nil => simp
  | cons x t ih =>
    by_cases hP : P x = true
    · by_cases hQ : Q x = true
      · rw [List.filter_cons, if_pos hP, List.filter_cons, if_pos hQ,
          List.filter_cons, if_pos hQ, List.length_cons, List.length_cons]
        omega
      · rw [List.filter_cons, if_pos hP, List.filter_cons, if_neg hQ,
          List.filter_cons, if_neg hQ]
        exact ih
    · by_cases hQ : Q x = true
      · rw [List.filter_cons, if_neg hP, List.filter_cons, if_pos hQ, List.length_cons]
        omega
      · rw [List.filter_cons, if_neg hP, List.filter_cons, if_neg hQ]
        exact ih

theorem getv_ratio {α : Type} (keyf : α → Option Period) (lnum lden : List α)
    (periods : List Period) (p : Period) (hp : p ∈ periods) :
    getv (timesHundred (seriesDiv (reindexFill periods (groupSizeBy keyf lnum) (some 0))
        (reindexFill periods (groupSizeBy keyf lden) (some 0)))) p
      = (if ((lden.filter (fun x => keyf x == some p)).length : ℚ) = 0 then none
         else some (((lnum.filter (fun x => keyf x == some p)).length : ℚ)
            / ((lden.filter (fun x => keyf x == some p)).length : ℚ) * 100)) := by
  unfold timesHundred
  rw [getv_seriesMap _ rfl, getv_seriesDiv, getv_countSeries _ _ _ _ hp,
    getv_countSeries _ _ _ _ hp]
  by_cases h : ((lden.filter (fun x => keyf x == some p)).length : ℚ) = 0
  · simp [pandasDiv, h]
  · simp [pandasDiv, h]

theorem getv_ratio_replace0 {α : Type} (keyf : α → Option Period) (lnum lden : List α)
    (periods : List Period) (p : Period) (hp : p ∈ periods) :
    getv (timesHundred (seriesDiv (reindexFill periods (groupSizeBy keyf lnum) (some 0))
        (replaceZeroNaN (reindexFill periods (groupSizeBy keyf lden) (some 0))))) p
      = (if ((lden.filter (fun x => keyf x == some p)).length : ℚ) = 0 then none
         else some (((lnum.filter (fun x => keyf x == some p)).length : ℚ)
            / ((lden.filter (fun x => keyf x == some p)).length : ℚ) * 100)) := by
  unfold timesHundred replaceZeroNaN
  rw [getv_seriesMap _ rfl, getv_seriesDiv, getv_countSeries _ _ _ _ hp,
    getv_seriesMap _ rfl, getv_countSeries _ _ _ _ hp]
  by_cases h : ((lden.filter (fun x => keyf x == some p)).length : ℚ) = 0
  · simp [pandasDiv, h]
  · simp [pandasDiv, h]

theorem compute_capa_commitment_eq (periods : List Period) (df : List Capa)
    (hne : periods ≠ []) :
    compute_capa_commitment periods (some df)
      = some (timesHundred (seriesDiv
          (reindexFill periods (groupSizeBy (fun c => c.subPeriod)
            ((closedOnly df).filter (fun c => dleB c.subDate c.dueDate))) (some 0))
          (reindexFill periods (groupSizeBy (fun c => c.subPeriod) (closedOnly df))
            (some 0)))) := by
  cases periods with
  | nil => exact absurd rfl hne
  | cons q qs => rfl

theorem compute_capa_effectiveness_eq (periods : List Period) (df : List Capa) :
    compute_capa_effectiveness periods (some df)
      = some (timesHundred (seriesDiv
          (reindexFill periods (groupSizeBy (fun c => c.subPeriod)
            ((closedOnly df).filter (fun c => c.effStatus == some "Pass"))) (some 0))
          (reindexFill periods (groupSizeBy (fun c => c.subPeriod) (closedOnly df))
            (some 0)))) := rfl

theorem compute_submitted_timely_eq (periods : List Period) (df : List Capa) :
    compute_submitted_timely periods (some df)
      = some (timesHundred (seriesDiv
          (reindexFill periods (groupSizeBy (fun c => c.subPeriod)
            ((closedOnly df).filter (fun c => qleB c.age 90))) (some 0))
          (reindexFill periods (groupSizeBy (fun c => c.subPeriod) (closedOnly df))
            (some 0)))) := rfl

theorem compute_complaint_commitment_eq (periods : List Period) (cs : List Complaint) :
    compute_complaint_commitment periods (some cs)
      = some (timesHundred (seriesDiv
          (reindexFill periods
            (groupSizeBy (fun c => c.completedPeriod) (cs.filter (fun c => qleB c.daysOpen 60)))
            (some 0))
          (replaceZeroNaN
            (reindexFill periods (groupSizeBy (fun c => c.completedPeriod) cs) (some 0))))) :=
  rfl

theorem scan_isSome (l : List (String × Option PSeries))
    (h : ∀ c ∈ l, ∀ s, c.2 = some s → s ≠ []) (st : Option Period × Option String) :
    ∃ r, l.foldl scanStep (some st) = some r := by
  induction l generalizing st with
  | nil => exact ⟨st, rfl⟩
  | cons c t ih =>
    have hc := h c (List.mem_cons_self c t)
    have ht : ∀ c2 ∈ t, ∀ s, c2.2 = some s → s ≠ [] :=
      fun c2 hm => h c2 (List.mem_cons_of_mem c hm)
    rw [List.foldl_cons]
    obtain ⟨st2, hst2⟩ : ∃ st2, scanStep (some st) c = some st2 := by
      cases hc2 : c.2 with
      | none => exact ⟨st, by simp [scanStep, hc2]⟩
      | some s =>
        cases s with
        | nil => exact absurd rfl (hc [] hc2)
        | cons x xs =>
          cases hmp : st.1 with
          | none => exact ⟨(some x.1, some c.1), by simp [scanStep, hc2, keys, hmp]⟩
          | some mp =>
            by_cases hcmp : mp < x.1
            · exact ⟨(some x.1, some c.1), by simp [scanStep, hc2, keys, hmp, hcmp]⟩
            · exact ⟨st, by simp [scanStep, hc2, keys, hmp, hcmp]⟩
    rw [hst2]
    exact ih ht st2

/-- C1 counterexample: with all four category series available but the
audits series EMPTY (reachable: `compute_audit_commitment` returns an
empty Series whenever no audit row has a nonzero planned count), the
min-period scan evaluates `commitment.index[0]` and raises `IndexError` —
no composite is returned, refuting the claim that availability of the four
series suffices for the composite formula. -/
theorem claim1_counterexample :
    compute_commitment (some []) (some [((0 : Period), some 1)]) (some [((0 : Period), some 1)])
        (some [((0 : Period), some 1)]) = none := rfl

/-- C1 (amended): for every interval, when all four category commitment
series are available AND each has a nonempty index (an available empty
series makes the min-period scan raise IndexError instead), the composite
returned by `compute_commitment` equals, elementwise over periods,
`1 + (0.2·Audits + 0.25·CAPAs + 0.35·Complaints + 0.2·Training)` — the
literal `1 + Σ weight_i · series_i` with the documented weights (NaN
wherever any component is missing or NaN at that period, per pandas
alignment). -/
theorem claim1_weighted_composite_amended (A Ca Co T : PSeries)
    (hA : A ≠ []) (hCa : Ca ≠ []) (hCo : Co ≠ []) (hT : T ≠ []) (p : Period) :
    (compute_commitment (some A) (some Ca) (some Co) (some T)).map
        (fun r => r.toOption.map (fun x => getv x.1 p))
      = some (some (match getv A p, getv Ca p, getv Co p, getv T p with
              | some a, some ca, some co, some t =>
                  some (1 + (0.2 * a + 0.25 * ca + 0.35 * co + 0.2 * t))
              | _, _, _, _ => none)) := by
  obtain ⟨st, hscan⟩ := scan_isSome
    [("Audits", some A), ("CAPAs", some Ca), ("Complaints", some Co), ("Training", some T)]
    (by
      intro c hcm s hs
      simp only [List.mem_cons, List.not_mem_nil, or_false] at hcm
      rcases hcm with rfl | rfl | rfl | rfl <;> injection hs with hs2 <;> rw [← hs2] <;>
        assumption)
    (none, none)
  have hred : compute_commitment (some A) (some Ca) (some Co) (some T)
      = commitBody [("Audits", some A), ("CAPAs", some Ca), ("Complaints", some Co),
          ("Training", some T)] st := by
    simp only [compute_commitment]
    rw [hscan]
  rw [hred]
  have h1 : (commitBody [("Audits", some A), ("CAPAs", some Ca), ("Complaints", some Co),
        ("Training", some T)] st).map (fun r => r.toOption.map (fun x => getv x.1 p))
      = some (some (getv (seriesAdd (seriesAdd (seriesAdd (seriesAddConst 1 (seriesScale 0.2 A))
          (seriesScale 0.25 Ca)) (seriesScale 0.35 Co)) (seriesScale 0.2 T)) p)) := rfl
  rw [h1, getv_seriesAdd, getv_seriesAdd, getv_seriesAdd]
  unfold seriesAddConst seriesScale
  rw [getv_seriesMap _ rfl, getv_seriesMap _ rfl, getv_seriesMap _ rfl, getv_seriesMap _ rfl,
    getv_seriesMap _ rfl]
  cases getv A p <;> cases getv Ca p <;> cases getv Co p <;> cases getv T p
  all_goals simp [omap2]
  ring

/-- Witness for C1 (amended) at four nonempty singleton series. -/
theorem claim1_witness :
    (compute_commitment (some [((0 : Period), some 1)]) (some [((0 : Period), some 1)])
          (some [((0 : Period), some 1)]) (some [((0 : Period), some 1)])).map
        (fun r => r.toOption.map (fun x => getv x.1 0))
      = some (some (match getv [((0 : Period), some 1)] 0, getv [((0 : Period), some 1)] 0,
              getv [((0 : Period), some 1)] 0, getv [((0 : Period), some 1)] 0 with
              | some a, some ca, some co, some t =>
                  some (1 + (0.2 * a + 0.25 * ca + 0.35 * co + 0.2 * t))
              | _, _, _, _ => none)) :=
  claim1_weighted_composite_amended [((0 : Period), some 1)] [((0 : Period), some 1)]
    [((0 : Period), some 1)] [((0 : Period), some 1)] (by simp) (by simp) (by simp) (by simp) 0

/-- C3 counterexample: with the training data unavailable and the other
three series available and nonempty, the source produces NO error message
at all — `compute_training_commitment()[interval]` raises `TypeError`
while the commitments dict is being built, because `dfs_training` is the
Python `None`, which the `isinstance(..., str)` guard does not catch — so
the missing Training category is never named, refuting the claim that
every missing category is named in a returned error message. -/
theorem claim3_counterexample :
    compute_commitment (some [((0 : Period), some 1)]) (some [((0 : Period), some 1)])
        (some [((0 : Period), some 1)]) none = none := rfl

/-- C3 (amended): for every interval, if any of the Audits, CAPAs, or
Complaints commitment series is unavailable while the training series is
available, and no available series has an empty index (an empty one makes
the min-period scan raise IndexError first), `compute_commitment` fails
with an error message that names each of those missing categories, and
returns no partial composite; an unavailable Training category instead
crashes with TypeError before any message is built, so it is never named. -/
theorem claim3_missing_category_amended (a ca co : Option PSeries) (tr : PSeries)
    (h : a = none ∨ ca = none ∨ co = none)
    (ha : ∀ s, a = some s → s ≠ []) (hca : ∀ s, ca = some s → s ≠ [])
    (hco : ∀ s, co = some s → s ≠ []) (htr : tr ≠ []) :
    compute_commitment a ca co (some tr)
        = some (Except.error (missing_data_msg (missingCategories a ca co (some tr))))
      ∧ (a = none →
          strContains (missing_data_msg (missingCategories a ca co (some tr))) "Audits" = true)
      ∧ (ca = none →
          strContains (missing_data_msg (missingCategories a ca co (some tr))) "CAPAs" = true)
      ∧ (co = none →
          strContains (missing_data_msg (missingCategories a ca co (some tr))) "Complaints"
            = true) := by
  obtain ⟨st, hscan⟩ := scan_isSome
    [("Audits", a), ("CAPAs", ca), ("Complaints", co), ("Training", some tr)]
    (by
      intro c hcm s hs
      simp only [List.mem_cons, List.not_mem_nil, or_false] at hcm
      rcases hcm with rfl | rfl | rfl | rfl
      · exact ha s hs
      · exact hca s hs
      · exact hco s hs
      · injection hs with hs2
        rw [← hs2]
        exact htr)
    (none, none)
  have hred : compute_commitment a ca co (some tr)
      = commitBody [("Audits", a), ("CAPAs", ca), ("Complaints", co), ("Training", some tr)]
          st := by
    simp only [compute_commitment]
    rw [hscan]
  rw [hred]
  rcases a with _ | A <;> rcases ca with _ | Ca <;> rcases co with _ | Co
  all_goals try (refine ⟨rfl, ?_, ?_, ?_⟩ <;> intro hx <;>
    first
      | exact Option.noConfusion hx
      | rfl)
  all_goals exact absurd h (by simp)

/-- Witness for C3 (amended): the Audits series unavailable, the other two
and the training series available nonempty singletons. -/
theorem claim3_witness :
    compute_commitment none (some [((0 : Period), some 1)]) (some [((0 : Period), some 1)])
          (some [((0 : Period), some 1)])
        = some (Except.error (missing_data_msg (missingCategories none
            (some [((0 : Period), some 1)]) (some [((0 : Period), some 1)])
            (some [((0 : Period), some 1)]))))
      ∧ ((none : Option PSeries) = none →
          strContains (missing_data_msg (missingCategories none
              (some [((0 : Period), some 1)]) (some [((0 : Period), some 1)])
              (some [((0 : Period), some 1)]))) "Audits" = true)
      ∧ ((some [((0 : Period), some 1)] : Option PSeries) = none →
          strContains (missing_data_msg (missingCategories none
              (some [((0 : Period), some 1)]) (some [((0 : Period), some 1)])
              (some [((0 : Period), some 1)]))) "CAPAs" = true)
      ∧ ((some [((0 : Period), some 1)] : Option PSeries) = none →
          strContains (missing_data_msg (missingCategories none
              (some [((0 : Period), some 1)]) (some [((0 : Period), some 1)])
              (some [((0 : Period), some 1)]))) "Complaints" = true) :=
  claim3_missing_category_amended none (some [((0 : Period), some 1)])
    (some [((0 : Period), some 1)]) [((0 : Period), some 1)] (Or.inl rfl)
    (fun s hs => Option.noConfusion hs)
    (fun s hs => by
      injection hs with hs2
      rw [← hs2]
      simp)
    (fun s hs => by
      injection hs with hs2
      rw [← hs2]
      simp)
    (by simp)

/-- C9: the rolling average drawn by `plot_bar`
(`data.rolling(window=3, min_periods=3).mean()`) is a simple trailing mean
over a full window of 3 periods: the first two positions of any series are
NaN (not zero and not partially averaged), and at any later position whose
trailing window holds three defined values it is their mean. -/
theorem claim9_rolling_average :
    (∀ (xs : List (Option ℚ)) (i : Nat), i < 2 → i < xs.length →
        (rollingMean 3 3 xs)[i]? = some none)
    ∧ (∀ (pre : List (Option ℚ)) (a b c : ℚ) (suf : List (Option ℚ)),
        (rollingMean 3 3 (pre ++ [some a, some b, some c] ++ suf))[pre.length + 2]?
          = some (some ((a + b + c) / 3))) := by
  constructor
  · intro xs i hi hlen
    unfold rollingMean
    rw [List.getElem?_map, List.getElem?_range hlen]
    have h2 : ((windowAt xs 3 i).filterMap id).length < 3 := by
      have h1 := List.length_filterMap_le (id : Option ℚ → Option ℚ) (windowAt xs 3 i)
      have h3 : (windowAt xs 3 i).length ≤ i + 1 := by
        simp only [windowAt, List.length_drop, List.length_take]
        omega
      omega
    simp only [Option.map_some']
    rw [if_neg (by omega)]
  · intro pre a b c suf
    have hlen : pre.length + 2 < (pre ++ [some a, some b, some c] ++ suf).length := by
      simp only [List.length_append, List.length_cons, List.length_nil]
      omega
    have hw : windowAt (pre ++ [some a, some b, some c] ++ suf) 3 (pre.length + 2)
        = [some a, some b, some c] := by
      unfold windowAt
      have h3 : pre.length + 2 + 1 - 3 = pre.length := by omega
      have h4 : pre.length + 2 + 1 = pre.length + 3 := by omega
      rw [h3, h4, List.append_assoc, List.take_append 3]
      have h5 : List.take 3 ([some a, some b, some c] ++ suf) = [some a, some b, some c] :=
        List.take_left' rfl
      rw [h5, List.drop_left]
    unfold rollingMean
    rw [List.getElem?_map, List.getElem?_range hlen]
    simp only [Option.map_some', hw]
    have hv : List.filterMap id [some a, some b, some c] = [a, b, c] := rfl
    rw [hv]
    simp [List.sum_cons]
    ring

/-- Witness for C9: for the series `[1,2,3,4,5]` the rolling average is
undefined at the first two periods and equals `mean(1,2,3) = 2` at the
third (index 2). -/
theorem claim9_witness :
    (rollingMean 3 3 [some 1, some 2, some 3, some 4, some 5])[0]? = some none
    ∧ (rollingMean 3 3 [some 1, some 2, some 3, some 4, some 5])[1]? = some none
    ∧ (rollingMean 3 3 [some 1, some 2, some 3, some 4, some 5])[2]?
        = some (some ((1 + 2 + 3) / 3)) := by
  refine ⟨?_, ?_, ?_⟩
  · exact claim9_rolling_average.1 [some 1, some 2, some 3, some 4, some 5] 0
      (by decide) (by decide)
  · exact claim9_rolling_average.1 [some 1, some 2, some 3, some 4, some 5] 1
      (by decide) (by decide)
  · simpa using claim9_rolling_average.2 [] 1 2 3 [some 4, some 5]

/-- C7 counterexample: a window of 3 entries of which only 1 is non-missing
passes the `len(y_values) > 2` guard, so `plot_bar` fits a trendline from a
single non-missing point — refuting the claim that fewer than 3 non-missing
points are always refused. -/
theorem claim7_counterexample :
    ((([some (1 : ℚ), none, none] : List (Option ℚ)).filterMap id).length < 3)
    ∧ fitsTrendline [some (1 : ℚ), none, none] = true := by
  decide

/-- C7 (amended): the guard consults only the TOTAL length of the window
(after the boundary-period exclusion), not the number of non-missing
points: a trendline is refused whenever the window has fewer than 3
entries, and in particular whenever the plotted window has fewer than 3
periods before the boundary trim. -/
theorem claim7_trend_refusal_amended :
    (∀ y : List (Option ℚ), y.length < 3 → fitsTrendline y = false)
    ∧ (∀ (f : List (Option ℚ)) (dropFirst dropLast : Bool), f.length < 3 →
        fitsTrendline (trimBoundary f dropFirst dropLast) = false) := by
  constructor
  · intro y h
    simp only [fitsTrendline, decide_eq_false_iff_not]
    omega
  · intro f d1 d2 h
    have hl : (trimBoundary f d1 d2).length ≤ f.length := by
      unfold trimBoundary
      cases d1 <;> cases d2 <;>
        simp only [Bool.false_eq_true, if_false, if_true, List.length_dropLast,
          List.length_drop] <;>
        omega
    simp only [fitsTrendline, decide_eq_false_iff_not]
    omega

/-- Witness for C7 (amended) at a concrete 2-entry window. -/
theorem claim7_witness :
    fitsTrendline [some (1 : ℚ), some 2] = false
    ∧ fitsTrendline (trimBoundary [some (1 : ℚ), some 2] true true) = false :=
  ⟨claim7_trend_refusal_amended.1 [some (1 : ℚ), some 2] (by decide),
   claim7_trend_refusal_amended.2 [some (1 : ℚ), some 2] true true (by decide)⟩

/-- C2 at its failing input: one training row in period 0 with zero
trainings completed (zero denominator).  `compute_training_commitment`
builds the NaN via `replace(0, nan)` but the trailing `.fillna(0)` turns it
into the number `0`: the training calculator returns 0, not NaN, for a
zero-denominator period, contradicting the claimed zero-denominator → NaN
behaviour that the other four calculators do implement. -/
theorem claim2_training_zero_denominator_bug :
    compute_training_commitment [0] (some [⟨0, 0, 0⟩]) = some [(0, some 0)] := by
  decide

theorem ratio_cell_bounds {num den : Nat} (hle : num ≤ den) (v : ℚ)
    (h : (if ((den : ℚ)) = 0 then none else some ((num : ℚ) / (den : ℚ) * 100)) = some v) :
    0 ≤ v ∧ v ≤ 100 := by
  split at h
  · exact absurd h (by simp)
  · rename_i hd
    have hv : (num : ℚ) / (den : ℚ) * 100 = v := Option.some.inj h
    subst hv
    constructor
    · positivity
    · have hdpos : (0 : ℚ) < (den : ℚ) := lt_of_le_of_ne (Nat.cast_nonneg den) (Ne.symm hd)
      have h1 : (num : ℚ) / (den : ℚ) ≤ 1 := (div_le_one hdpos).mpr (by exact_mod_cast hle)
      calc (num : ℚ) / (den : ℚ) * 100 ≤ 1 * 100 :=
            mul_le_mul_of_nonneg_right h1 (by norm_num)
        _ = 100 := one_mul 100

theorem ratio_cell_none_iff (num den : Nat) :
    ((if ((den : ℚ)) = 0 then none else some ((num : ℚ) / (den : ℚ) * 100)) = (none : Option ℚ))
      ↔ den = 0 := by
  split
  · rename_i hd
    constructor
    · intro _
      exact_mod_cast hd
    · intro _
      rfl
  · rename_i hd
    constructor
    · intro h
      exact absurd h (by simp)
    · intro h
      exact absurd (show ((den : ℚ)) = 0 by exact_mod_cast h) hd

/-- C6 counterexample: with one OPEN CAPA submitted on time and one closed
CAPA submitted late in period 0, the claimed formula over ALL CAPAs
submitted in the period gives `1/2 · 100 = 50`, but the code (which counts
only CAPAs with Status 'Closed') returns 0. -/
theorem claim6_counterexample :
    (compute_capa_commitment [0] (some exC6df)).map (fun S => getv S 0) = some (some 0)
    ∧ ((exC6df.filter (fun c => dleB c.subDate c.dueDate)).filter
        (fun c => c.subPeriod == some 0)).length = 1
    ∧ (exC6df.filter (fun c => c.subPeriod == some 0)).length = 2
    ∧ (1 : ℚ) / 2 * 100 = 50
    ∧ (some (0 : ℚ) : Option ℚ) ≠ some 50 := by
  refine ⟨?_, by decide, by decide, by norm_num, by norm_num⟩
  rw [compute_capa_commitment_eq [0] exC6df (by decide), Option.map_some',
    getv_ratio (fun c => c.subPeriod)
      ((closedOnly exC6df).filter (fun c => dleB c.subDate c.dueDate)) (closedOnly exC6df)
      [0] 0 (by decide)]
  rw [show (((closedOnly exC6df).filter (fun c => dleB c.subDate c.dueDate)).filter
      (fun c => c.subPeriod == some 0)).length = 0 from rfl]
  rw [show ((closedOnly exC6df).filter (fun c => c.subPeriod == some 0)).length = 1 from rfl]
  norm_num

/-- C6 (amended): for every interval and period P of the canonical range,
CAPA commitment at P is `(closed CAPAs submitted in P on or before their
due date) / (closed CAPAs submitted in P) * 100`, restricted to records
with Status 'Closed', and NaN when no closed CAPA was submitted in P. -/
theorem claim6_capa_commitment_amended (periods : List Period) (df : List Capa) (p : Period)
    (hp : p ∈ periods) :
    (compute_capa_commitment periods (some df)).map (fun S => getv S p)
      = some
          (if ((((closedOnly df).filter (fun c => c.subPeriod == some p)).length : ℚ)) = 0 then
            none
          else
            some (((((closedOnly df).filter (fun c => dleB c.subDate c.dueDate)).filter
                  (fun c => c.subPeriod == some p)).length : ℚ)
              / ((((closedOnly df).filter (fun c => c.subPeriod == some p)).length : ℚ))
              * 100)) := by
  have hne : periods ≠ [] := by
    intro h
    subst h
    cases hp
  rw [compute_capa_commitment_eq periods df hne, Option.map_some',
    getv_ratio (fun c => c.subPeriod) ((closedOnly df).filter (fun c => dleB c.subDate c.dueDate))
      (closedOnly df) periods p hp]

/-- Witness for C6 (amended) at the concrete frame `exC6df`. -/
theorem claim6_witness :
    (compute_capa_commitment [0] (some exC6df)).map (fun S => getv S 0)
      = some
          (if ((((closedOnly exC6df).filter (fun c => c.subPeriod == some 0)).length : ℚ)) = 0 then
            none
          else
            some (((((closedOnly exC6df).filter (fun c => dleB c.subDate c.dueDate)).filter
                  (fun c => c.subPeriod == some 0)).length : ℚ)
              / ((((closedOnly exC6df).filter (fun c => c.subPeriod == some 0)).length : ℚ))
              * 100)) :=
  claim6_capa_commitment_amended [0] exC6df 0 (by decide)

/-- C10: every CAPA-derived period metric (submission counts, CAPA
commitment, CAPA effectiveness, percent submitted within 90 days) counts
only CAPAs whose Status is 'Closed': prepending any record whose Status is
not 'Closed' (e.g. a still-open CAPA with a submission date) changes
neither the numerator nor the denominator of any of them. -/
theorem claim10_closed_status_filter (periods : List Period) (df : List Capa) (c : Capa)
    (hc : c.status ≠ "Closed") :
    ct_by_submission_date periods (some (c :: df)) = ct_by_submission_date periods (some df)
    ∧ compute_capa_commitment periods (some (c :: df))
        = compute_capa_commitment periods (some df)
    ∧ compute_capa_effectiveness periods (some (c :: df))
        = compute_capa_effectiveness periods (some df)
    ∧ compute_submitted_timely periods (some (c :: df))
        = compute_submitted_timely periods (some df) := by
  have h : closedOnly (c :: df) = closedOnly df := by
    unfold closedOnly
    rw [List.filter_cons, if_neg (by simp [hc])]
  refine ⟨?_, ?_, ?_, ?_⟩ <;>
    simp only [ct_by_submission_date, compute_capa_commitment, compute_capa_effectiveness,
      compute_submitted_timely, h]

/-- Witness for C10: one open CAPA prepended to the empty frame. -/
theorem claim10_witness :
    ct_by_submission_date [0] (some ((⟨"Open", some 0, some 5, none, none, some 0⟩ : Capa)
          :: ([] : List Capa)))
        = ct_by_submission_date [0] (some ([] : List Capa))
    ∧ compute_capa_commitment [0] (some ((⟨"Open", some 0, some 5, none, none, some 0⟩ : Capa)
          :: ([] : List Capa)))
        = compute_capa_commitment [0] (some ([] : List Capa))
    ∧ compute_capa_effectiveness [0] (some ((⟨"Open", some 0, some 5, none, none, some 0⟩ : Capa)
          :: ([] : List Capa)))
        = compute_capa_effectiveness [0] (some ([] : List Capa))
    ∧ compute_submitted_timely [0] (some ((⟨"Open", some 0, some 5, none, none, some 0⟩ : Capa)
          :: ([] : List Capa)))
        = compute_submitted_timely [0] (some ([] : List Capa)) :=
  claim10_closed_status_filter [0] [] ⟨"Open", some 0, some 5, none, none, some 0⟩ (by decide)

/-- C5 counterexample: an audit record set with 1 planned and 5 completed
audits in a period yields an audit commitment of 500%, above the claimed
[0, 100] range. -/
theorem claim5_counterexample :
    (compute_audit_commitment (some [⟨0, 1, 5⟩])).map (fun S => getv S 0) = some (some 500)
    ∧ ¬((500 : ℚ) ≤ 100) := by
  constructor
  · have h1 : (compute_audit_commitment (some [⟨0, 1, 5⟩])).map (fun S => getv S 0)
        = some (auditGroupVal [⟨0, 1, 5⟩] 0) := rfl
    rw [h1]
    unfold auditGroupVal
    rw [show ((([⟨0, 1, 5⟩] : List AuditRow).filter (fun r => r.period == 0)).map
        (fun r => r.planned)).sum = 1 from rfl]
    rw [show ((([⟨0, 1, 5⟩] : List AuditRow).filter (fun r => r.period == 0)).map
        (fun r => r.completed)).sum = 5 from rfl]
    norm_num
  · norm_num

/-- C5 (amended): every commitment value produced is ≥ 0 or NaN.  CAPA
commitment, CAPA effectiveness, and complaint commitment values lie in
[0, 100], with NaN exactly at zero-denominator periods.  Audit commitment
may exceed 100 (when a period's completed count exceeds its planned count;
its zero-planned periods are dropped from the index rather than set to
NaN), and training commitment is never NaN on the canonical range (its
zero-denominator periods are 0-filled; see C2). -/
theorem claim5_commitment_range_amended :
    (∀ (rows : List AuditRow) (p : Period) (v : ℚ),
        (compute_audit_commitment (some rows)).map (fun S => getv S p) = some (some v) →
          0 ≤ v)
    ∧ (∀ (periods : List Period) (df : List Capa) (p : Period), p ∈ periods →
        (((compute_capa_commitment periods (some df)).map (fun S => getv S p) = some none
            ↔ ((closedOnly df).filter (fun c => c.subPeriod == some p)).length = 0)
          ∧ ∀ v : ℚ,
              (compute_capa_commitment periods (some df)).map (fun S => getv S p)
                  = some (some v) → 0 ≤ v ∧ v ≤ 100))
    ∧ (∀ (periods : List Period) (df : List Capa) (p : Period), p ∈ periods →
        (((compute_capa_effectiveness periods (some df)).map (fun S => getv S p) = some none
            ↔ ((closedOnly df).filter (fun c => c.subPeriod == some p)).length = 0)
          ∧ ∀ v : ℚ,
              (compute_capa_effectiveness periods (some df)).map (fun S => getv S p)
                  = some (some v) → 0 ≤ v ∧ v ≤ 100))
    ∧ (∀ (periods : List Period) (cs : List Complaint) (p : Period), p ∈ periods →
        (((compute_complaint_commitment periods (some cs)).map (fun S => getv S p) = some none
            ↔ (cs.filter (fun c => c.completedPeriod == some p)).length = 0)
          ∧ ∀ v : ℚ,
              (compute_complaint_commitment periods (some cs)).map (fun S => getv S p)
                  = some (some v) → 0 ≤ v ∧ v ≤ 100))
    ∧ (∀ (periods : List Period) (rows : List TrainRow) (p : Period), p ∈ periods →
        ((compute_training_commitment periods (some rows)).map (fun S => getv S p) ≠ some none
          ∧ ∀ v : ℚ,
              (compute_training_commitment periods (some rows)).map (fun S => getv S p)
                  = some (some v) → 0 ≤ v)) := by
  refine ⟨?_, ?_, ?_, ?_, ?_⟩
  · -- audit commitment: nonnegative
    intro rows p v h
    rw [show compute_audit_commitment (some rows)
        = some ((sortedDedup ((rows.filter (fun r => r.planned != 0)).map (fun r => r.period))).map
            (fun q => (q, auditGroupVal (rows.filter (fun r => r.planned != 0)) q))) from rfl,
      Option.map_some'] at h
    rw [getv_map_key] at h
    have h2 := Option.some.inj h
    split at h2
    · unfold auditGroupVal at h2
      split at h2
      · exact absurd h2 (by simp)
      · have h3 := Option.some.inj h2
        subst h3
        positivity
    · exact absurd h2 (by simp)
  · -- CAPA commitment
    intro periods df p hp
    have hne : periods ≠ [] := by
      intro hh
      subst hh
      cases hp
    rw [compute_capa_commitment_eq periods df hne, Option.map_some',
      getv_ratio (fun c => c.subPeriod)
        ((closedOnly df).filter (fun c => dleB c.subDate c.dueDate)) (closedOnly df)
        periods p hp]
    constructor
    · rw [Option.some.injEq]
      exact ratio_cell_none_iff _ _
    · intro v hv
      exact ratio_cell_bounds
        (length_filter_filter_le (fun c => dleB c.subDate c.dueDate)
          (fun c => c.subPeriod == some p) (closedOnly df))
        v (Option.some.inj hv)
  · -- CAPA effectiveness
    intro periods df p hp
    rw [compute_capa_effectiveness_eq periods df, Option.map_some',
      getv_ratio (fun c => c.subPeriod)
        ((closedOnly df).filter (fun c => c.effStatus == some "Pass")) (closedOnly df)
        periods p hp]
    constructor
    · rw [Option.some.injEq]
      exact ratio_cell_none_iff _ _
    · intro v hv
      exact ratio_cell_bounds
        (length_filter_filter_le (fun c => c.effStatus == some "Pass")
          (fun c => c.subPeriod == some p) (closedOnly df))
        v (Option.some.inj hv)
  · -- complaint commitment
    intro periods cs p hp
    rw [compute_complaint_commitment_eq periods cs, Option.map_some',
      getv_ratio_replace0 (fun c => c.completedPeriod)
        (cs.filter (fun c => qleB c.daysOpen 60)) cs periods p hp]
    constructor
    · rw [Option.some.injEq]
      exact ratio_cell_none_iff _ _
    · intro v hv
      exact ratio_cell_bounds
        (length_filter_filter_le (fun c => qleB c.daysOpen 60)
          (fun c => c.completedPeriod == some p) cs)
        v (Option.some.inj hv)
  · -- training commitment
    intro periods rows p hp
    rw [show compute_training_commitment periods (some rows)
        = some (periods.map
            (fun q =>
              (q, some (match ((sortedDedup (rows.map (fun r => r.period))).map
                      (fun q2 => (q2, trainingRatioVal rows q2))).lookup q with
                    | some (some v) => v
                    | some none => 0
                    | none => 0)))) from rfl,
      Option.map_some', getv_map_key, if_pos hp]
    constructor
    · simp
    · intro v hv
      have h2 := Option.some.inj (Option.some.inj hv)
      rw [lookup_map_key] at h2
      by_cases hm : p ∈ sortedDedup (rows.map (fun r => r.period))
      · rw [if_pos hm] at h2
        cases htr : trainingRatioVal rows p with
        | none =>
          rw [htr] at h2
          simp at h2
          subst h2
          norm_num
        | some w =>
          rw [htr] at h2
          simp at h2
          subst h2
          unfold trainingRatioVal at htr
          split at htr
          · exact absurd htr (by simp)
          · have h3 := Option.some.inj htr
            rw [← h3]
            positivity
      · rw [if_neg hm] at h2
        simp at h2
        subst h2
        norm_num

/-- Witness for C5 (amended): the capa-commitment clause at a concrete
frame with one closed CAPA submitted on time in period 0, whose commitment
is 100. -/
theorem claim5_witness :
    0 ≤ (100 : ℚ) ∧ (100 : ℚ) ≤ 100 :=
  (claim5_commitment_range_amended.2.1 [0]
      [⟨"Closed", some 0, some 5, none, none, some 0⟩] 0 (by decide)).2 100
    (by
      rw [compute_capa_commitment_eq [0] [⟨"Closed", some 0, some 5, none, none, some 0⟩]
          (by decide),
        Option.map_some',
        getv_ratio (fun c => c.subPeriod)
          ((closedOnly [⟨"Closed", some 0, some 5, none, none, some 0⟩]).filter
            (fun c => dleB c.subDate c.dueDate))
          (closedOnly [⟨"Closed", some 0, some 5, none, none, some 0⟩]) [0] 0 (by decide)]
      rw [show (((closedOnly [⟨"Closed", some 0, some 5, none, none, some 0⟩]).filter
          (fun c => dleB c.subDate c.dueDate)).filter
            (fun c => c.subPeriod == some 0)).length = 1 from rfl]
      rw [show ((closedOnly [⟨"Closed", some 0, some 5, none, none, some 0⟩]).filter
          (fun c => c.subPeriod == some 0)).length = 1 from rfl]
      norm_num)

/-- C4 counterexample: an available audit record set with one row (period
0, 1 planned, 1 completed) under the two-period canonical range
`canonicalRange 0 1 = [0, 1]`: the audit commitment index is `[0]`, not the
canonical range — `compute_audit_commitment` never reindexes. -/
theorem claim4_counterexample :
    (compute_audit_commitment (some [⟨0, 1, 1⟩])).map keys = some [0]
    ∧ canonicalRange 0 1 = [0, 1]
    ∧ (some [(0 : Period)] : Option (List Period)) ≠ some (canonicalRange 0 1) := by
  refine ⟨by decide, by decide, by decide⟩

/-- C4 (amended): the count aggregations and the CAPA, complaint, and
training commitment series are reindexed so their index is exactly the
canonical period range, with periods absent from the count data filled
with 0; the audit commitment series is NOT reindexed — its index is
exactly the sorted distinct periods having at least one audit row with a
nonzero planned count. -/
theorem claim4_reindex_amended :
    (∀ (periods : List Period) (df : List Capa),
        (ct_by_submission_date periods (some df)).map keys = some periods
        ∧ ∀ p ∈ periods,
            (closedOnly df).filter (fun c => c.subPeriod == some p) = [] →
              (ct_by_submission_date periods (some df)).map (fun S => getv S p)
                = some (some 0))
    ∧ (∀ (periods : List Period) (df : List Capa), periods ≠ [] →
        (compute_capa_commitment periods (some df)).map keys = some periods)
    ∧ (∀ (periods : List Period) (cs : List Complaint),
        (compute_complaint_commitment periods (some cs)).map keys = some periods)
    ∧ (∀ (periods : List Period) (rows : List TrainRow),
        (compute_training_commitment periods (some rows)).map keys = some periods)
    ∧ (∀ rows : List AuditRow,
        (compute_audit_commitment (some rows)).map keys
          = some (sortedDedup ((rows.filter (fun r => r.planned != 0)).map
              (fun r => r.period)))) := by
  refine ⟨?_, ?_, ?_, ?_, ?_⟩
  · intro periods df
    constructor
    · rw [show ct_by_submission_date periods (some df)
          = some (reindexFill periods
              (groupSizeBy (fun c => c.subPeriod) (closedOnly df)) (some 0)) from rfl,
        Option.map_some', keys_reindexFill]
    · intro p hp hfil
      rw [show ct_by_submission_date periods (some df)
          = some (reindexFill periods
              (groupSizeBy (fun c => c.subPeriod) (closedOnly df)) (some 0)) from rfl,
        Option.map_some', getv_countSeries (fun c => c.subPeriod) (closedOnly df) periods p hp,
        hfil]
      norm_num
  · intro periods df hne
    rw [compute_capa_commitment_eq periods df hne, Option.map_some']
    unfold timesHundred
    rw [keys_seriesMap, keys_seriesDiv, keys_reindexFill, keys_reindexFill, unionKeys_self]
  · intro periods cs
    rw [compute_complaint_commitment_eq periods cs, Option.map_some']
    unfold timesHundred replaceZeroNaN
    rw [keys_seriesMap, keys_seriesDiv, keys_reindexFill, keys_seriesMap, keys_reindexFill,
      unionKeys_self]
  · intro periods rows
    rw [show compute_training_commitment periods (some rows)
        = some (periods.map
            (fun q =>
              (q, some (match ((sortedDedup (rows.map (fun r => r.period))).map
                      (fun q2 => (q2, trainingRatioVal rows q2))).lookup q with
                    | some (some v) => v
                    | some none => 0
                    | none => 0)))) from rfl,
      Option.map_some', keys_map_key]
  · intro rows
    rw [show compute_audit_commitment (some rows)
        = some ((sortedDedup ((rows.filter (fun r => r.planned != 0)).map
              (fun r => r.period))).map
            (fun q => (q, auditGroupVal (rows.filter (fun r => r.planned != 0)) q))) from rfl,
      Option.map_some', keys_map_key]

/-- Witness for C4 (amended): the count-aggregation clause at the empty
frame and a one-period canonical range. -/
theorem claim4_witness :
    (ct_by_submission_date [0] (some ([] : List Capa))).map (fun S => getv S 0)
      = some (some 0) :=
  (claim4_reindex_amended.1 [0] []).2 0 (by decide) (by decide)

end RaqaKpis
